import Mathlib

/-
  Verification of the weather-outfit recommendation service.

  The repository's source (app/main.py) contains the HTTP layer: the
  pydantic request/response models, the wardrobe endpoints and the
  try/except plumbing around the weather and outfit collaborators.
  The outfit recommendation engine itself is delegated to an external
  agent and its code is not part of the repository, so the engine
  (normalizer, wardrobe index, constraint filter, composer, assembler)
  is modelled here from the specification; the HTTP-layer definitions
  are translated directly from app/main.py.
-/

namespace WeatherOutfit

namespace Engine

/-- Modelled from the spec: temperature band enumeration of the data model,
the discretized bucket derived from raw temperature. -/
inductive TemperatureBand where
  | cold
  | cool
  | mild
  | warm
  | hot
deriving DecidableEq, Repr

/-- Modelled from the spec: wind band enumeration, optional in a snapshot. -/
inductive WindBand where
  | calm
  | breezy
  | windy
deriving DecidableEq, Repr

/-- Modelled from the spec: the functional slot an item fills. -/
inductive GarmentType where
  | top
  | bottom
  | shoes
  | outerwear
  | accessory
deriving DecidableEq, Repr

/-- Modelled from the spec: the formality tier enumeration. -/
inductive Formality where
  | casual
  | business
  | formal
deriving DecidableEq, Repr

/-- Modelled from the spec: one wardrobe entry, with the defaults of the
data model (waterproof false, empty colors, casual formality). -/
structure ClothingItem where
  name : String
  garmentType : GarmentType
  warmthLevel : TemperatureBand
  waterproof : Bool := false
  colors : List String := []
  formality : Formality := Formality.casual
deriving DecidableEq, Repr

/-- Modelled from the spec: canonical weather facts used for decisions. -/
structure WeatherSnapshot where
  temperatureBand : TemperatureBand
  precipitating : Bool
  windBand : Option WindBand := none
deriving DecidableEq, Repr

/-- Modelled from the spec: the raw provider weather record, every field
possibly missing; the temperature arrives as provider text and may be
malformed. -/
structure RawWeather where
  temperature : Option String := none
  condition : Option String := none
  wind : Option Int := none
deriving DecidableEq, Repr

/-- Modelled from the spec: the temperature thresholds are a configuration
table, defaulting to the cut points of the normalizer contract. -/
structure ThresholdConfig where
  coldMax : Int := 5
  coolMax : Int := 12
  mildMax : Int := 20
  warmMax : Int := 28
deriving DecidableEq, Repr

/-- Modelled from the spec: map a numeric temperature to its band using the
contiguous configured thresholds. -/
def bandOfTemp (cfg : ThresholdConfig) (t : Int) : TemperatureBand :=
  if t < cfg.coldMax then TemperatureBand.cold
  else if t < cfg.coolMax then TemperatureBand.cool
  else if t < cfg.mildMax then TemperatureBand.mild
  else if t ≤ cfg.warmMax then TemperatureBand.warm
  else TemperatureBand.hot

/-- Modelled from the spec: the provider condition codes that mean rain or
snow, mapped to the precipitation flag. -/
def rainSnowCodes : List String :=
  ["rain", "snow", "drizzle", "sleet", "hail", "thunderstorm"]

/-- Modelled from the spec: the numeric value of a decimal digit character
of the provider text, none for any other character. -/
def digitVal (c : Char) : Option Nat :=
  if 48 ≤ c.toNat ∧ c.toNat ≤ 57 then some (c.toNat - 48) else none

/-- Modelled from the spec: parse a non-empty run of decimal digits, none on
any malformed character. -/
def parseNatChars (cs : List Char) : Option Nat :=
  if cs = [] then none
  else cs.foldl
    (fun acc c =>
      match acc, digitVal c with
      | some n, some d => some (n * 10 + d)
      | _, _ => none)
    (some 0)

/-- Modelled from the spec: parse the provider temperature text as an
integer, none when the text is malformed. -/
def parseTemp (s : String) : Option Int :=
  match s.data with
  | '-' :: cs => (parseNatChars cs).map fun n => -(n : Int)
  | cs => (parseNatChars cs).map fun n => (n : Int)

/-- Modelled from the spec: map a wind speed to a wind band. -/
def windBandOf (w : Int) : WindBand :=
  if w < 15 then WindBand.calm
  else if w < 30 then WindBand.breezy
  else WindBand.windy

/-- Modelled from the spec: the WeatherSnapshot normalizer. It never fails:
a missing or malformed temperature falls back to the mild band, a missing
condition to no precipitation. -/
def normalize (cfg : ThresholdConfig) (raw : RawWeather) : WeatherSnapshot :=
  { temperatureBand :=
      match raw.temperature.bind parseTemp with
      | none => TemperatureBand.mild
      | some t => bandOfTemp cfg t
    precipitating :=
      match raw.condition with
      | none => false
      | some c => rainSnowCodes.contains c
    windBand := raw.wind.map windBandOf }

/-- Modelled from the spec: the engine error taxonomy. -/
inductive EngineError where
  | emptyWardrobe
  | infeasibleOutfit (missingType : GarmentType)
deriving DecidableEq, Repr

/-- Modelled from the spec: the string form of an engine error, as the
service would surface it. -/
def EngineError.message : EngineError → String
  | EngineError.emptyWardrobe => "no recommendation possible: wardrobe is empty"
  | EngineError.infeasibleOutfit g =>
      "infeasible outfit: no candidate for garment type " ++ reprStr g

/-- Modelled from the spec: the bucket of a garment type, keeping the input
order of the wardrobe sequence. -/
def bucket (items : List ClothingItem) (g : GarmentType) : List ClothingItem :=
  items.filter fun i => decide (i.garmentType = g)

/-- Modelled from the spec: the wardrobe index groups the items into five
ordered buckets. -/
structure WardrobeIndex where
  tops : List ClothingItem
  bottoms : List ClothingItem
  shoeItems : List ClothingItem
  outerwearItems : List ClothingItem
  accessories : List ClothingItem
deriving DecidableEq, Repr

/-- Modelled from the spec: O(1) lookup of a bucket by garment type. -/
def WardrobeIndex.get (idx : WardrobeIndex) : GarmentType → List ClothingItem
  | GarmentType.top => idx.tops
  | GarmentType.bottom => idx.bottoms
  | GarmentType.shoes => idx.shoeItems
  | GarmentType.outerwear => idx.outerwearItems
  | GarmentType.accessory => idx.accessories

/-- Modelled from the spec: building the wardrobe index fails with
EmptyWardrobeError only on an empty input sequence. -/
def index (items : List ClothingItem) : Except EngineError WardrobeIndex :=
  if items = [] then Except.error EngineError.emptyWardrobe
  else Except.ok
    { tops := bucket items GarmentType.top
      bottoms := bucket items GarmentType.bottom
      shoeItems := bucket items GarmentType.shoes
      outerwearItems := bucket items GarmentType.outerwear
      accessories := bucket items GarmentType.accessory }

/-- Modelled from the spec: position of a band on the ordered five-level
scale, so adjacency is index distance one. -/
def bandIdx : TemperatureBand → Nat
  | TemperatureBand.cold => 0
  | TemperatureBand.cool => 1
  | TemperatureBand.mild => 2
  | TemperatureBand.warm => 3
  | TemperatureBand.hot => 4

/-- Modelled from the spec: two bands are adjacent when their indices differ
by exactly one. -/
def adjacentBand (a b : TemperatureBand) : Bool :=
  decide (bandIdx a + 1 = bandIdx b) || decide (bandIdx b + 1 = bandIdx a)

/-- Modelled from the spec: warmth compatibility. An exact band match is
required; adjacent bands are admitted only when the bucket has no exact
match. -/
def warmthPass (l : List ClothingItem) (band : TemperatureBand) : List ClothingItem :=
  let exact := l.filter fun i => decide (i.warmthLevel = band)
  if exact = [] then l.filter fun i => adjacentBand i.warmthLevel band
  else exact

/-- Modelled from the spec: waterproofing. Under precipitation, outerwear and
shoes keep only waterproof candidates when at least one exists; otherwise the
constraint is relaxed. -/
def waterproofPass (l : List ClothingItem) (precip : Bool) (g : GarmentType) :
    List ClothingItem :=
  if precip = true ∧ (g = GarmentType.outerwear ∨ g = GarmentType.shoes)
      ∧ (l.any fun i => i.waterproof) = true then
    l.filter fun i => i.waterproof
  else l

/-- Modelled from the spec: formality. The candidate tier must equal the
occasion tier; casual may substitute for business only when no business item
exists; casual never substitutes for formal and formal never substitutes
downward. -/
def formalityPass (l : List ClothingItem) (tier : Formality) : List ClothingItem :=
  let exact := l.filter fun i => decide (i.formality = tier)
  if tier = Formality.business ∧ exact = [] then
    l.filter fun i => decide (i.formality = Formality.casual)
  else exact

/-- Modelled from the spec: the constraint filter chains warmth,
waterproofing and formality over one bucket. -/
def filterBucket (bkt : List ClothingItem) (snap : WeatherSnapshot)
    (tier : Formality) (g : GarmentType) : List ClothingItem :=
  formalityPass (waterproofPass (warmthPass bkt snap.temperatureBand)
    snap.precipitating g) tier

/-- Modelled from the spec: the deterministic scoring function of the
composer. -/
def score (snap : WeatherSnapshot) (tier : Formality) (i : ClothingItem) : Nat :=
  (if i.warmthLevel = snap.temperatureBand then 2 else 1)
  + (if i.formality = tier then 1 else 0)
  + (if i.waterproof = snap.precipitating then 1 else 0)

/-- Modelled from the spec: pick the highest-scoring candidate, ties broken
by original insertion order with the earlier item winning. -/
def pickBest (snap : WeatherSnapshot) (tier : Formality) :
    List ClothingItem → Option ClothingItem
  | [] => none
  | x :: xs => some (xs.foldl
      (fun best c => if score snap tier c > score snap tier best then c else best) x)

/-- Modelled from the spec: the recommendation output maps each mandatory
garment type to a chosen item, with outerwear and accessory optional. -/
structure Outfit where
  top : ClothingItem
  bottom : ClothingItem
  shoes : ClothingItem
  outerwear : Option ClothingItem := none
  accessory : Option ClothingItem := none
deriving DecidableEq, Repr

/-- Modelled from the spec: outerwear is warranted only by a cold or cool
band or by precipitation. -/
def outerwearWarranted (snap : WeatherSnapshot) : Bool :=
  decide (snap.temperatureBand = TemperatureBand.cold)
  || decide (snap.temperatureBand = TemperatureBand.cool)
  || snap.precipitating

/-- Modelled from the spec: the outfit composer. An empty filtered bucket for
a mandatory type (checked in the fixed order top, bottom, shoes) is an
InfeasibleOutfitError naming that type; outerwear is included only when
warranted and available; an accessory is included opportunistically. -/
def compose (fb : GarmentType → List ClothingItem) (snap : WeatherSnapshot)
    (tier : Formality) : Except EngineError Outfit :=
  match pickBest snap tier (fb GarmentType.top) with
  | none => Except.error (EngineError.infeasibleOutfit GarmentType.top)
  | some t =>
    match pickBest snap tier (fb GarmentType.bottom) with
    | none => Except.error (EngineError.infeasibleOutfit GarmentType.bottom)
    | some b =>
      match pickBest snap tier (fb GarmentType.shoes) with
      | none => Except.error (EngineError.infeasibleOutfit GarmentType.shoes)
      | some s =>
        Except.ok
          { top := t
            bottom := b
            shoes := s
            outerwear :=
              if outerwearWarranted snap = true then
                pickBest snap tier (fb GarmentType.outerwear)
              else none
            accessory := pickBest snap tier (fb GarmentType.accessory) }

/-- Modelled from the spec: per-item rationale text recording which
constraints the chosen item satisfied. -/
def itemReason (snap : WeatherSnapshot) (tier : Formality) (g : GarmentType)
    (i : ClothingItem) : String :=
  (if i.warmthLevel = snap.temperatureBand then "exact warmth" else "adjacent warmth")
  ++ (if i.formality = tier then ", exact formality" else ", substituted formality")
  ++ (if snap.precipitating = true
        ∧ (g = GarmentType.outerwear ∨ g = GarmentType.shoes) then
        (if i.waterproof then ", waterproof under precipitation"
         else ", waterproofing relaxed")
      else "")

/-- Modelled from the spec: an outfit plus the ordered rationale sequence. -/
structure RecommendationOutput where
  outfit : Outfit
  rationale : List (GarmentType × String)
deriving DecidableEq, Repr

/-- Modelled from the spec: the recommendation assembler, a pure
transformation that records the rationale per chosen item in a fixed
order. -/
def assemble (o : Outfit) (snap : WeatherSnapshot) (tier : Formality) :
    RecommendationOutput :=
  { outfit := o
    rationale :=
      [(GarmentType.top, itemReason snap tier GarmentType.top o.top),
       (GarmentType.bottom, itemReason snap tier GarmentType.bottom o.bottom),
       (GarmentType.shoes, itemReason snap tier GarmentType.shoes o.shoes)]
      ++ (match o.outerwear with
          | some i => [(GarmentType.outerwear,
              itemReason snap tier GarmentType.outerwear i)]
          | none => [])
      ++ (match o.accessory with
          | some i => [(GarmentType.accessory,
              itemReason snap tier GarmentType.accessory i)]
          | none => []) }

/-- Modelled from the spec: occasion strings are an open vocabulary
normalized to a formality tier, with unrecognized values defaulting to
casual. -/
def normalizeOccasion (s : String) : Formality :=
  if s = "formal" then Formality.formal
  else if s = "business" then Formality.business
  else Formality.casual

/-- Modelled from the spec: the filtered bucket of one garment type for a
given request, as the pipeline produces it. -/
def filteredBucket (cfg : ThresholdConfig) (raw : RawWeather) (occasion : String)
    (items : List ClothingItem) (g : GarmentType) : List ClothingItem :=
  filterBucket (bucket items g) (normalize cfg raw) (normalizeOccasion occasion) g

/-- Modelled from the spec: the full engine pipeline, a fixed linear run
through normalizer, index, filter, composer and assembler. -/
def recommend (cfg : ThresholdConfig) (raw : RawWeather) (occasion : String)
    (items : List ClothingItem) : Except EngineError RecommendationOutput :=
  match index items with
  | Except.error e => Except.error e
  | Except.ok idx =>
    let snap := normalize cfg raw
    let tier := normalizeOccasion occasion
    match compose (fun g => filterBucket (idx.get g) snap tier g) snap tier with
    | Except.error e => Except.error e
    | Except.ok o => Except.ok (assemble o snap tier)

end Engine

namespace Api

/-- The ClothingItem request model of app/main.py, with the pydantic field
defaults. -/
structure ClothingItem where
  name : String
  type : String
  warmth_level : String
  waterproof : Bool := false
  colors : List String := []
  formality : String := "casual"
deriving DecidableEq, Repr

/-- Response body of the POST /wardrobe/items handler. -/
structure AddItemResponse where
  message : String
  item : ClothingItem
deriving DecidableEq, Repr

/-- Response body of the GET /wardrobe/items handler. -/
structure ListWardrobeResponse where
  items : List ClothingItem
deriving DecidableEq, Repr

/-- The add_clothing_item handler of app/main.py: the database state is
threaded explicitly; the handler body never touches it and echoes the
submitted item. -/
def add_clothing_item (db : List ClothingItem) (item : ClothingItem) :
    List ClothingItem × AddItemResponse :=
  (db, { message := "Item added", item := item })

/-- The list_wardrobe handler of app/main.py: it returns an empty item list
without reading the database state. -/
def list_wardrobe (db : List ClothingItem) :
    List ClothingItem × ListWardrobeResponse :=
  (db, { items := [] })

/-- Sequential processing of POST /wardrobe/items requests, threading the
database state through each handler call. -/
def runAdds (db : List ClothingItem) : List ClothingItem → List ClothingItem
  | [] => db
  | i :: is => runAdds (add_clothing_item db i).1 is

/-- Outcome of an endpoint: a successful body or an HTTPException with a
status code and a detail string. -/
inductive EndpointResult (α : Type) where
  | ok (value : α)
  | httpError (statusCode : Nat) (detail : String)
deriving DecidableEq, Repr

/-- The HTTP status carried by an endpoint outcome, none on success. -/
def EndpointResult.status {α : Type} : EndpointResult α → Option Nat
  | EndpointResult.ok _ => none
  | EndpointResult.httpError s _ => some s

/-- The get_weather handler of app/main.py: the collaborator outcome is
passed in; any exception becomes HTTPException(500, str(e)). -/
def get_weather {α : Type} (weatherResult : Except String α) : EndpointResult α :=
  match weatherResult with
  | Except.ok w => EndpointResult.ok w
  | Except.error e => EndpointResult.httpError 500 e

/-- The recommend_outfit handler of app/main.py: it consults the weather
collaborator, then the outfit agent; any exception raised by either becomes
HTTPException(500, str(e)). -/
def recommend_outfit {w r : Type} (weatherResult : Except String w)
    (agentResult : w → Except String r) : EndpointResult r :=
  match weatherResult with
  | Except.error e => EndpointResult.httpError 500 e
  | Except.ok wd =>
    match agentResult wd with
    | Except.error e => EndpointResult.httpError 500 e
    | Except.ok rec => EndpointResult.ok rec

end Api

namespace Engine

/-- Members of a garment-type bucket have that garment type and come from
the wardrobe. -/
theorem mem_bucket {items : List ClothingItem} {g : GarmentType}
    {x : ClothingItem} (hx : x ∈ bucket items g) :
    x ∈ items ∧ x.garmentType = g := by
  have h := List.mem_filter.mp hx
  exact ⟨h.1, of_decide_eq_true h.2⟩

/-- The warmth stage only keeps members of its input bucket. -/
theorem mem_warmthPass {l : List ClothingItem} {band : TemperatureBand}
    {x : ClothingItem} (hx : x ∈ warmthPass l band) : x ∈ l := by
  unfold warmthPass at hx
  dsimp only at hx
  split at hx
  · exact List.mem_of_mem_filter hx
  · exact List.mem_of_mem_filter hx

/-- The waterproofing stage only keeps members of its input. -/
theorem mem_waterproofPass {l : List ClothingItem} {precip : Bool}
    {g : GarmentType} {x : ClothingItem} (hx : x ∈ waterproofPass l precip g) :
    x ∈ l := by
  unfold waterproofPass at hx
  split at hx
  · exact List.mem_of_mem_filter hx
  · exact hx

/-- The formality stage only keeps members of its input. -/
theorem mem_formalityPass {l : List ClothingItem} {tier : Formality}
    {x : ClothingItem} (hx : x ∈ formalityPass l tier) : x ∈ l := by
  unfold formalityPass at hx
  dsimp only at hx
  split at hx
  · exact List.mem_of_mem_filter hx
  · exact List.mem_of_mem_filter hx

/-- The constraint filter only keeps members of the bucket it filters. -/
theorem mem_filterBucket {bkt : List ClothingItem} {snap : WeatherSnapshot}
    {tier : Formality} {g : GarmentType} {x : ClothingItem}
    (hx : x ∈ filterBucket bkt snap tier g) : x ∈ bkt :=
  mem_warmthPass (mem_waterproofPass (mem_formalityPass hx))

/-- When the occasion tier is formal, every filter survivor is a formal
item. -/
theorem formality_of_mem_formalityPass_formal {l : List ClothingItem}
    {x : ClothingItem} (hx : x ∈ formalityPass l Formality.formal) :
    x.formality = Formality.formal := by
  unfold formalityPass at hx
  dsimp only at hx
  split at hx
  · next h => exact absurd h.1 (by decide)
  · exact of_decide_eq_true (List.mem_filter.mp hx).2

/-- Under precipitation, when the warmth survivors of an outerwear or shoes
bucket include a waterproof item, every waterproofing-stage survivor is
waterproof. -/
theorem waterproof_of_mem_waterproofPass {l : List ClothingItem}
    {g : GarmentType} {x : ClothingItem}
    (hg : g = GarmentType.outerwear ∨ g = GarmentType.shoes)
    (hex : (l.any fun i => i.waterproof) = true)
    (hx : x ∈ waterproofPass l true g) : x.waterproof = true := by
  unfold waterproofPass at hx
  rw [if_pos ⟨rfl, hg, hex⟩] at hx
  exact (List.mem_filter.mp hx).2

/-- The fold used by the composer returns its seed or a list member. -/
theorem pick_foldl_mem (snap : WeatherSnapshot) (tier : Formality) :
    ∀ (xs : List ClothingItem) (a : ClothingItem),
      xs.foldl (fun best c => if score snap tier c > score snap tier best
        then c else best) a = a
      ∨ xs.foldl (fun best c => if score snap tier c > score snap tier best
        then c else best) a ∈ xs := by
  intro xs
  induction xs with
  | nil => intro a; exact Or.inl rfl
  | cons x xs ih =>
    intro a
    rw [List.foldl_cons]
    rcases ih (if score snap tier x > score snap tier a then x else a) with h | h
    · rw [h]
      split
      · exact Or.inr (List.mem_cons_self x xs)
      · exact Or.inl rfl
    · exact Or.inr (List.mem_cons_of_mem x h)

/-- The composer's pick returns a member of the list it picks from. -/
theorem pickBest_mem {snap : WeatherSnapshot} {tier : Formality}
    {l : List ClothingItem} {x : ClothingItem}
    (hx : pickBest snap tier l = some x) : x ∈ l := by
  cases l with
  | nil => exact absurd hx (by simp [pickBest])
  | cons a as =>
    have hx' : as.foldl (fun best c => if score snap tier c > score snap tier best
        then c else best) a = x := by
      simpa [pickBest] using hx
    rcases pick_foldl_mem snap tier as a with h | h
    · rw [hx'] at h
      rw [h]
      exact List.mem_cons_self a as
    · rw [hx'] at h
      exact List.mem_cons_of_mem a h

/-- The composer's pick succeeds exactly on non-empty lists. -/
theorem pickBest_eq_none_iff {snap : WeatherSnapshot} {tier : Formality}
    {l : List ClothingItem} : pickBest snap tier l = none ↔ l = [] := by
  cases l with
  | nil => simp [pickBest]
  | cons a as => simp [pickBest]

/-- On a non-empty wardrobe, indexing succeeds and each bucket of the index
is the garment-type bucket of the wardrobe. -/
theorem index_ok_get {items : List ClothingItem} (h : items ≠ []) :
    ∃ idx, index items = Except.ok idx ∧ ∀ g, idx.get g = bucket items g := by
  refine ⟨_, by rw [index, if_neg h], ?_⟩
  intro g
  cases g <;> rfl

/-- Unfolding of the pipeline on a non-empty wardrobe: the composer runs on
the filtered buckets and a successful composition is assembled. -/
theorem recommend_eq {cfg : ThresholdConfig} {raw : RawWeather}
    {occasion : String} {items : List ClothingItem} (h : items ≠ []) :
    recommend cfg raw occasion items =
      match compose (filteredBucket cfg raw occasion items)
          (normalize cfg raw) (normalizeOccasion occasion) with
      | Except.error e => Except.error e
      | Except.ok o => Except.ok
          (assemble o (normalize cfg raw) (normalizeOccasion occasion)) := by
  obtain ⟨idx, hidx, hget⟩ := index_ok_get h
  have hfb : (fun g => filterBucket (idx.get g) (normalize cfg raw)
      (normalizeOccasion occasion) g) = filteredBucket cfg raw occasion items := by
    funext g
    rw [hget g]
    rfl
  rw [recommend, hidx]
  dsimp only
  rw [hfb]

/-- A non-empty list always yields a pick. -/
theorem pickBest_some_of_ne (snap : WeatherSnapshot) (tier : Formality)
    {l : List ClothingItem} (h : l ≠ []) :
    ∃ x, pickBest snap tier l = some x := by
  cases l with
  | nil => exact absurd rfl h
  | cons a as => exact ⟨_, rfl⟩

/-- Every error the composer returns is an InfeasibleOutfitError. -/
theorem compose_error_infeasible {fb : GarmentType → List ClothingItem}
    {snap : WeatherSnapshot} {tier : Formality} {e : EngineError}
    (h : compose fb snap tier = Except.error e) :
    ∃ g, e = EngineError.infeasibleOutfit g := by
  unfold compose at h
  split at h
  · injection h with h
    exact ⟨_, h.symm⟩
  · split at h
    · injection h with h
      exact ⟨_, h.symm⟩
    · split at h
      · injection h with h
        exact ⟨_, h.symm⟩
      · exact Except.noConfusion h

/-- An empty filtered top bucket makes composition fail naming top. -/
theorem compose_top_empty {fb : GarmentType → List ClothingItem}
    {snap : WeatherSnapshot} {tier : Formality}
    (h : fb GarmentType.top = []) :
    compose fb snap tier =
      Except.error (EngineError.infeasibleOutfit GarmentType.top) := by
  unfold compose
  rw [pickBest_eq_none_iff.mpr h]

/-- With top available, an empty filtered bottom bucket makes composition
fail naming bottom. -/
theorem compose_bottom_empty {fb : GarmentType → List ClothingItem}
    {snap : WeatherSnapshot} {tier : Formality}
    (ht : fb GarmentType.top ≠ []) (h : fb GarmentType.bottom = []) :
    compose fb snap tier =
      Except.error (EngineError.infeasibleOutfit GarmentType.bottom) := by
  obtain ⟨t, hpt⟩ := pickBest_some_of_ne snap tier ht
  unfold compose
  rw [hpt, pickBest_eq_none_iff.mpr h]

/-- With top and bottom available, an empty filtered shoes bucket makes
composition fail naming shoes. -/
theorem compose_shoes_empty {fb : GarmentType → List ClothingItem}
    {snap : WeatherSnapshot} {tier : Formality}
    (ht : fb GarmentType.top ≠ []) (hb : fb GarmentType.bottom ≠ [])
    (h : fb GarmentType.shoes = []) :
    compose fb snap tier =
      Except.error (EngineError.infeasibleOutfit GarmentType.shoes) := by
  obtain ⟨t, hpt⟩ := pickBest_some_of_ne snap tier ht
  obtain ⟨b, hpb⟩ := pickBest_some_of_ne snap tier hb
  unfold compose
  rw [hpt, hpb, pickBest_eq_none_iff.mpr h]

/-- Every slot of a composed outfit is filled from the corresponding
filtered bucket. -/
theorem compose_ok_mem {fb : GarmentType → List ClothingItem}
    {snap : WeatherSnapshot} {tier : Formality} {o : Outfit}
    (h : compose fb snap tier = Except.ok o) :
    o.top ∈ fb GarmentType.top ∧ o.bottom ∈ fb GarmentType.bottom ∧
    o.shoes ∈ fb GarmentType.shoes ∧
    (∀ c, o.outerwear = some c → c ∈ fb GarmentType.outerwear) ∧
    (∀ c, o.accessory = some c → c ∈ fb GarmentType.accessory) := by
  unfold compose at h
  split at h
  · exact Except.noConfusion h
  · next t hpt =>
    split at h
    · exact Except.noConfusion h
    · next b hpb =>
      split at h
      · exact Except.noConfusion h
      · next s hps =>
        injection h with h
        subst h
        refine ⟨pickBest_mem hpt, pickBest_mem hpb, pickBest_mem hps, ?_, ?_⟩
        · intro c hc
          dsimp only at hc
          split at hc
          · exact pickBest_mem hc
          · exact Option.noConfusion hc
        · intro c hc
          dsimp only at hc
          exact pickBest_mem hc

end Engine

namespace Api

/-- The database state is unchanged by any sequence of add requests, since
the handler body never touches it. -/
theorem runAdds_eq (db : List ClothingItem) :
    ∀ adds, runAdds db adds = db
  | [] => rfl
  | _ :: as => runAdds_eq db as

end Api

open Engine in
/-- C1: for every pair of identical inputs (weather, occasion, wardrobe),
two invocations of the recommendation pipeline return the identical
recommendation: the same outfit with the rationale entries in the same
order. -/
theorem recommendation_deterministic (cfg : ThresholdConfig)
    (raw₁ raw₂ : RawWeather) (occ₁ occ₂ : String)
    (items₁ items₂ : List ClothingItem)
    (hw : raw₁ = raw₂) (ho : occ₁ = occ₂) (hi : items₁ = items₂) :
    recommend cfg raw₁ occ₁ items₁ = recommend cfg raw₂ occ₂ items₂ := by
  rw [hw, ho, hi]

open Engine in
/-- Witness for C1 at a concrete request. -/
theorem recommendation_deterministic_witness :
    recommend {} {} "casual"
        [{ name := "tee", garmentType := GarmentType.top,
           warmthLevel := TemperatureBand.mild }] =
      recommend {} {} "casual"
        [{ name := "tee", garmentType := GarmentType.top,
           warmthLevel := TemperatureBand.mild }] :=
  recommendation_deterministic {} {} {} "casual" "casual"
    [{ name := "tee", garmentType := GarmentType.top,
       warmthLevel := TemperatureBand.mild }]
    [{ name := "tee", garmentType := GarmentType.top,
       warmthLevel := TemperatureBand.mild }]
    rfl rfl rfl

open Engine in
/-- C3: indexing, and hence the pipeline, raises EmptyWardrobeError exactly
on an empty item sequence; any non-empty wardrobe is indexed successfully
even when some buckets are empty. -/
theorem empty_wardrobe_iff (cfg : ThresholdConfig) (raw : RawWeather)
    (occ : String) (items : List ClothingItem) :
    (index items = Except.error EngineError.emptyWardrobe ↔ items = []) ∧
    (recommend cfg raw occ items = Except.error EngineError.emptyWardrobe ↔
      items = []) ∧
    (items ≠ [] → ∃ idx, index items = Except.ok idx) := by
  refine ⟨?_, ?_, fun h => ⟨_, (index_ok_get h).choose_spec.1⟩⟩
  · by_cases h : items = []
    · subst h
      simp [index]
    · rw [index, if_neg h]
      simp [h]
  · by_cases h : items = []
    · subst h
      simp [recommend, index]
    · rw [recommend_eq h]
      constructor
      · intro hcontra
        rcases hcomp : compose (filteredBucket cfg raw occ items)
            (normalize cfg raw) (normalizeOccasion occ) with e | o
        · rw [hcomp] at hcontra
          injection hcontra with h'
          obtain ⟨g, hg⟩ := compose_error_infeasible hcomp
          rw [hg] at h'
          exact EngineError.noConfusion h'
        · rw [hcomp] at hcontra
          exact Except.noConfusion hcontra
      · intro h'
        exact absurd h' h

open Engine in
/-- Witness for C3: a one-item wardrobe with empty buckets for the other
garment types is indexed successfully. -/
theorem empty_wardrobe_iff_witness :
    ∃ idx, index
        [{ name := "tee", garmentType := GarmentType.top,
           warmthLevel := TemperatureBand.mild }] = Except.ok idx :=
  (empty_wardrobe_iff {} {} "casual"
    [{ name := "tee", garmentType := GarmentType.top,
       warmthLevel := TemperatureBand.mild }]).2.2 (by decide)

open Engine in
/-- C7: the normalizer is total on raw weather records and a missing or
malformed temperature yields the mild band while a missing condition yields
no precipitation. -/
theorem normalize_total_defaults (cfg : ThresholdConfig) (raw : RawWeather) :
    (raw.temperature = none →
      (normalize cfg raw).temperatureBand = TemperatureBand.mild) ∧
    (∀ s, raw.temperature = some s → parseTemp s = none →
      (normalize cfg raw).temperatureBand = TemperatureBand.mild) ∧
    (raw.condition = none → (normalize cfg raw).precipitating = false) := by
  refine ⟨?_, ?_, ?_⟩
  · intro h
    simp [Engine.normalize, h]
  · intro s hs hparse
    simp [Engine.normalize, hs, hparse]
  · intro h
    simp [Engine.normalize, h]

open Engine in
/-- Witness for C7: the fully absent record normalizes to the conservative
defaults, and a malformed temperature string falls back to mild. -/
theorem normalize_total_defaults_witness :
    (normalize {} {}).temperatureBand = TemperatureBand.mild ∧
    (normalize {} {}).precipitating = false ∧
    (normalize {} { temperature := some "oops" }).temperatureBand =
      TemperatureBand.mild :=
  ⟨(normalize_total_defaults {} {}).1 rfl,
   (normalize_total_defaults {} {}).2.2 rfl,
   (normalize_total_defaults {} { temperature := some "oops" }).2.1
     "oops" rfl (by decide)⟩

/-- C8: the ClothingItem request model defaults waterproof to false, colors
to the empty sequence and formality to casual, while explicitly supplied
values are kept unchanged. -/
theorem clothing_item_defaults (n t w f : String) (wp : Bool)
    (cs : List String) :
    ({ name := n, type := t, warmth_level := w } : Api.ClothingItem).waterproof
        = false ∧
    ({ name := n, type := t, warmth_level := w } : Api.ClothingItem).colors
        = [] ∧
    ({ name := n, type := t, warmth_level := w } : Api.ClothingItem).formality
        = "casual" ∧
    ({ name := n, type := t, warmth_level := w, waterproof := wp,
       colors := cs, formality := f } : Api.ClothingItem) =
      Api.ClothingItem.mk n t w wp cs f :=
  ⟨rfl, rfl, rfl, rfl⟩

/-- C9: the wardrobe endpoints carry no state: after any sequence of add
requests the database state is unchanged, listing returns an empty item
list, and adding merely echoes the submitted item. -/
theorem wardrobe_endpoints_stateless (db : List Api.ClothingItem)
    (adds : List Api.ClothingItem) (i : Api.ClothingItem) :
    (Api.list_wardrobe (Api.runAdds db adds)).2 = { items := [] } ∧
    Api.runAdds db adds = db ∧
    (Api.add_clothing_item db i).2 = { message := "Item added", item := i } ∧
    (Api.add_clothing_item db i).1 = db :=
  ⟨rfl, Api.runAdds_eq db adds, rfl, rfl⟩

open Engine in
/-- C2: whenever the filtered bucket of every mandatory garment type is
non-empty, composition succeeds and the outfit holds exactly one top, one
bottom and one pair of shoes, each drawn from the bucket of its type. -/
theorem mandatory_coverage (cfg : ThresholdConfig) (raw : RawWeather)
    (occ : String) (items : List ClothingItem)
    (hne : items ≠ [])
    (htop : filteredBucket cfg raw occ items GarmentType.top ≠ [])
    (hbot : filteredBucket cfg raw occ items GarmentType.bottom ≠ [])
    (hsh : filteredBucket cfg raw occ items GarmentType.shoes ≠ []) :
    ∃ out, recommend cfg raw occ items = Except.ok out ∧
      out.outfit.top.garmentType = GarmentType.top ∧
      out.outfit.bottom.garmentType = GarmentType.bottom ∧
      out.outfit.shoes.garmentType = GarmentType.shoes := by
  obtain ⟨t, hpt⟩ := pickBest_some_of_ne (normalize cfg raw)
    (normalizeOccasion occ) htop
  obtain ⟨b, hpb⟩ := pickBest_some_of_ne (normalize cfg raw)
    (normalizeOccasion occ) hbot
  obtain ⟨s, hps⟩ := pickBest_some_of_ne (normalize cfg raw)
    (normalizeOccasion occ) hsh
  rcases hcomp : compose (filteredBucket cfg raw occ items)
      (normalize cfg raw) (normalizeOccasion occ) with e | o
  · exfalso
    unfold compose at hcomp
    rw [hpt, hpb, hps] at hcomp
    exact Except.noConfusion hcomp
  · obtain ⟨h1, h2, h3, -, -⟩ := compose_ok_mem hcomp
    refine ⟨assemble o (normalize cfg raw) (normalizeOccasion occ),
      by rw [recommend_eq hne, hcomp], ?_, ?_, ?_⟩
    · exact (mem_bucket (mem_filterBucket h1)).2
    · exact (mem_bucket (mem_filterBucket h2)).2
    · exact (mem_bucket (mem_filterBucket h3)).2

open Engine in
/-- Witness for C2 on a three-item wardrobe covering the mandatory types. -/
theorem mandatory_coverage_witness :
    ∃ out, recommend {} {} "casual"
        [{ name := "tee", garmentType := GarmentType.top,
           warmthLevel := TemperatureBand.mild },
         { name := "jeans", garmentType := GarmentType.bottom,
           warmthLevel := TemperatureBand.mild },
         { name := "sneakers", garmentType := GarmentType.shoes,
           warmthLevel := TemperatureBand.mild }] = Except.ok out ∧
      out.outfit.top.garmentType = GarmentType.top ∧
      out.outfit.bottom.garmentType = GarmentType.bottom ∧
      out.outfit.shoes.garmentType = GarmentType.shoes :=
  mandatory_coverage {} {} "casual"
    [{ name := "tee", garmentType := GarmentType.top,
       warmthLevel := TemperatureBand.mild },
     { name := "jeans", garmentType := GarmentType.bottom,
       warmthLevel := TemperatureBand.mild },
     { name := "sneakers", garmentType := GarmentType.shoes,
       warmthLevel := TemperatureBand.mild }]
    (by decide) (by decide) (by decide) (by decide)

open Engine in
/-- C4: for a non-empty wardrobe with an empty filtered bucket for a
mandatory garment type, the pipeline fails with an InfeasibleOutfitError
naming a missing mandatory type, and it names exactly the missing type when
that type is the only missing one. -/
theorem infeasible_names_missing_type (cfg : ThresholdConfig)
    (raw : RawWeather) (occ : String) (items : List ClothingItem)
    (g : GarmentType) (hne : items ≠ [])
    (hg : g = GarmentType.top ∨ g = GarmentType.bottom ∨ g = GarmentType.shoes)
    (hempty : filteredBucket cfg raw occ items g = []) :
    (∃ g', (g' = GarmentType.top ∨ g' = GarmentType.bottom ∨
        g' = GarmentType.shoes) ∧
      filteredBucket cfg raw occ items g' = [] ∧
      recommend cfg raw occ items =
        Except.error (EngineError.infeasibleOutfit g')) ∧
    ((∀ g'', (g'' = GarmentType.top ∨ g'' = GarmentType.bottom ∨
        g'' = GarmentType.shoes) →
        filteredBucket cfg raw occ items g'' = [] → g'' = g) →
      recommend cfg raw occ items =
        Except.error (EngineError.infeasibleOutfit g)) := by
  have main : ∃ g', (g' = GarmentType.top ∨ g' = GarmentType.bottom ∨
      g' = GarmentType.shoes) ∧
      filteredBucket cfg raw occ items g' = [] ∧
      recommend cfg raw occ items =
        Except.error (EngineError.infeasibleOutfit g') := by
    by_cases ht : filteredBucket cfg raw occ items GarmentType.top = []
    · exact ⟨GarmentType.top, Or.inl rfl, ht,
        by rw [recommend_eq hne, compose_top_empty ht]⟩
    · by_cases hb : filteredBucket cfg raw occ items GarmentType.bottom = []
      · exact ⟨GarmentType.bottom, Or.inr (Or.inl rfl), hb,
          by rw [recommend_eq hne, compose_bottom_empty ht hb]⟩
      · by_cases hs : filteredBucket cfg raw occ items GarmentType.shoes = []
        · exact ⟨GarmentType.shoes, Or.inr (Or.inr rfl), hs,
            by rw [recommend_eq hne, compose_shoes_empty ht hb hs]⟩
        · exfalso
          rcases hg with h | h | h
          · subst h
            exact ht hempty
          · subst h
            exact hb hempty
          · subst h
            exact hs hempty
  refine ⟨main, fun huniq => ?_⟩
  obtain ⟨g', hm, he, hr⟩ := main
  rwa [huniq g' hm he] at hr

open Engine in
/-- Witness for C4: a wardrobe with a top and a bottom but no shoes is
rejected naming shoes as the missing type. -/
theorem infeasible_names_missing_type_witness :
    recommend {} {} "casual"
        [{ name := "tee", garmentType := GarmentType.top,
           warmthLevel := TemperatureBand.mild },
         { name := "jeans", garmentType := GarmentType.bottom,
           warmthLevel := TemperatureBand.mild }] =
      Except.error (EngineError.infeasibleOutfit GarmentType.shoes) :=
  (infeasible_names_missing_type {} {} "casual"
    [{ name := "tee", garmentType := GarmentType.top,
       warmthLevel := TemperatureBand.mild },
     { name := "jeans", garmentType := GarmentType.bottom,
       warmthLevel := TemperatureBand.mild }]
    GarmentType.shoes (by decide) (Or.inr (Or.inr rfl)) (by decide)).2
    (by
      intro g'' hm he
      rcases hm with h | h | h
      · subst h
        exact absurd he (by decide)
      · subst h
        exact absurd he (by decide)
      · exact h)

open Engine in
/-- C5: under precipitation, when a waterproof outerwear candidate survives
the warmth stage of the outerwear bucket, any outerwear the engine selects
is waterproof. -/
theorem waterproof_precedence (cfg : ThresholdConfig) (raw : RawWeather)
    (occ : String) (items : List ClothingItem)
    (hprec : (normalize cfg raw).precipitating = true)
    (hwp : ((warmthPass (bucket items GarmentType.outerwear)
        (normalize cfg raw).temperatureBand).any fun i => i.waterproof)
        = true) :
    ∀ out c, recommend cfg raw occ items = Except.ok out →
      out.outfit.outerwear = some c → c.waterproof = true := by
  intro out c hrec hout
  have hne : items ≠ [] := by
    intro h
    subst h
    simp [Engine.recommend, Engine.index] at hrec
  rw [recommend_eq hne] at hrec
  rcases hcomp : compose (filteredBucket cfg raw occ items)
      (normalize cfg raw) (normalizeOccasion occ) with e | o
  · rw [hcomp] at hrec
    exact Except.noConfusion hrec
  · rw [hcomp] at hrec
    injection hrec with hrec
    obtain ⟨-, -, -, how, -⟩ := compose_ok_mem hcomp
    subst hrec
    have hmem : c ∈ filteredBucket cfg raw occ items GarmentType.outerwear :=
      how c hout
    have hmem' : c ∈ waterproofPass
        (warmthPass (bucket items GarmentType.outerwear)
          (normalize cfg raw).temperatureBand)
        (normalize cfg raw).precipitating GarmentType.outerwear :=
      mem_formalityPass hmem
    rw [hprec] at hmem'
    exact waterproof_of_mem_waterproofPass (Or.inl rfl) hwp hmem'

open Engine in
/-- Witness for C5: with rain, a business occasion and both a waterproof
rain jacket and a non-waterproof blazer in the wardrobe, the selected
outerwear is the rain jacket. -/
theorem waterproof_precedence_witness :
    ({ name := "rain jacket", garmentType := GarmentType.outerwear,
       warmthLevel := TemperatureBand.mild, waterproof := true,
       formality := Formality.business } : ClothingItem).waterproof = true :=
  waterproof_precedence {} { condition := some "rain" } "business"
    [{ name := "shirt", garmentType := GarmentType.top,
       warmthLevel := TemperatureBand.mild, formality := Formality.business },
     { name := "slacks", garmentType := GarmentType.bottom,
       warmthLevel := TemperatureBand.mild, formality := Formality.business },
     { name := "oxfords", garmentType := GarmentType.shoes,
       warmthLevel := TemperatureBand.mild, formality := Formality.business },
     { name := "rain jacket", garmentType := GarmentType.outerwear,
       warmthLevel := TemperatureBand.mild, waterproof := true,
       formality := Formality.business },
     { name := "blazer", garmentType := GarmentType.outerwear,
       warmthLevel := TemperatureBand.mild, formality := Formality.business }]
    (by decide) (by decide)
    (assemble
      { top :=
          { name := "shirt", garmentType := GarmentType.top,
            warmthLevel := TemperatureBand.mild,
            formality := Formality.business }
        bottom :=
          { name := "slacks", garmentType := GarmentType.bottom,
            warmthLevel := TemperatureBand.mild,
            formality := Formality.business }
        shoes :=
          { name := "oxfords", garmentType := GarmentType.shoes,
            warmthLevel := TemperatureBand.mild,
            formality := Formality.business }
        outerwear := some
          { name := "rain jacket",
            garmentType := GarmentType.outerwear,
            warmthLevel := TemperatureBand.mild, waterproof := true,
            formality := Formality.business }
        accessory := none }
      (normalize {} { condition := some "rain" })
      (normalizeOccasion "business"))
    { name := "rain jacket", garmentType := GarmentType.outerwear,
      warmthLevel := TemperatureBand.mild, waterproof := true,
      formality := Formality.business }
    rfl rfl

open Engine in
/-- C6: when the occasion normalizes to the formal tier, no casual item is
ever selected into any slot of the outfit. -/
theorem formality_non_downgrade (cfg : ThresholdConfig) (raw : RawWeather)
    (occ : String) (items : List ClothingItem)
    (hocc : normalizeOccasion occ = Formality.formal) :
    ∀ out, recommend cfg raw occ items = Except.ok out →
      out.outfit.top.formality ≠ Formality.casual ∧
      out.outfit.bottom.formality ≠ Formality.casual ∧
      out.outfit.shoes.formality ≠ Formality.casual ∧
      (∀ c, out.outfit.outerwear = some c →
        c.formality ≠ Formality.casual) ∧
      (∀ c, out.outfit.accessory = some c →
        c.formality ≠ Formality.casual) := by
  intro out hrec
  have hne : items ≠ [] := by
    intro h
    subst h
    simp [Engine.recommend, Engine.index] at hrec
  rw [recommend_eq hne] at hrec
  rcases hcomp : compose (filteredBucket cfg raw occ items)
      (normalize cfg raw) (normalizeOccasion occ) with e | o
  · rw [hcomp] at hrec
    exact Except.noConfusion hrec
  · rw [hcomp] at hrec
    injection hrec with hrec
    obtain ⟨h1, h2, h3, h4, h5⟩ := compose_ok_mem hcomp
    subst hrec
    have key : ∀ {x : ClothingItem} {g : GarmentType},
        x ∈ filteredBucket cfg raw occ items g →
        x.formality ≠ Formality.casual := by
      intro x g hx
      have hx' : x ∈ formalityPass
          (waterproofPass (warmthPass (bucket items g)
            (normalize cfg raw).temperatureBand)
            (normalize cfg raw).precipitating g)
          (normalizeOccasion occ) := hx
      rw [hocc] at hx'
      have hf := formality_of_mem_formalityPass_formal hx'
      rw [hf]
      decide
    exact ⟨key h1, key h2, key h3,
      fun c hc => key (h4 c hc), fun c hc => key (h5 c hc)⟩

open Engine in
/-- Witness for C6: a formal occasion over an all-formal wardrobe selects no
casual item. -/
theorem formality_non_downgrade_witness :
    (assemble
      { top :=
          { name := "dress shirt", garmentType := GarmentType.top,
            warmthLevel := TemperatureBand.mild,
            formality := Formality.formal }
        bottom :=
          { name := "suit trousers", garmentType := GarmentType.bottom,
            warmthLevel := TemperatureBand.mild,
            formality := Formality.formal }
        shoes :=
          { name := "dress shoes", garmentType := GarmentType.shoes,
            warmthLevel := TemperatureBand.mild,
            formality := Formality.formal }
        outerwear := none
        accessory := none }
      (normalize {} {})
      (normalizeOccasion "formal")).outfit.top.formality
      ≠ Formality.casual :=
  (formality_non_downgrade {} {} "formal"
    [{ name := "dress shirt", garmentType := GarmentType.top,
       warmthLevel := TemperatureBand.mild, formality := Formality.formal },
     { name := "suit trousers", garmentType := GarmentType.bottom,
       warmthLevel := TemperatureBand.mild, formality := Formality.formal },
     { name := "dress shoes", garmentType := GarmentType.shoes,
       warmthLevel := TemperatureBand.mild, formality := Formality.formal }]
    (by decide)
    (assemble
      { top :=
          { name := "dress shirt", garmentType := GarmentType.top,
            warmthLevel := TemperatureBand.mild,
            formality := Formality.formal }
        bottom :=
          { name := "suit trousers", garmentType := GarmentType.bottom,
            warmthLevel := TemperatureBand.mild,
            formality := Formality.formal }
        shoes :=
          { name := "dress shoes", garmentType := GarmentType.shoes,
            warmthLevel := TemperatureBand.mild,
            formality := Formality.formal }
        outerwear := none
        accessory := none }
      (normalize {} {})
      (normalizeOccasion "formal"))
    rfl).1

open Engine in
/-- C10: every exception inside the get_weather or recommend_outfit endpoint
bodies becomes HTTPException(500, str(e)); distinct engine error kinds do
not receive distinct status codes. -/
theorem exceptions_map_to_500 {w r : Type} (e : String) (wd : w)
    (f : w → Except String r) (err₁ err₂ : EngineError) :
    Api.get_weather (Except.error e : Except String w) =
      Api.EndpointResult.httpError 500 e ∧
    Api.recommend_outfit (Except.error e : Except String w) f =
      Api.EndpointResult.httpError 500 e ∧
    (f wd = Except.error e →
      Api.recommend_outfit (Except.ok wd) f =
        Api.EndpointResult.httpError 500 e) ∧
    (Api.recommend_outfit (Except.error err₁.message : Except String w)
        f).status =
      (Api.recommend_outfit (Except.error err₂.message : Except String w)
        f).status := by
  refine ⟨rfl, rfl, ?_, rfl⟩
  intro h
  simp [Api.recommend_outfit, h]

open Engine in
/-- Witness for C10: a failing outfit agent call surfaces as a 500 with the
exception text. -/
theorem exceptions_map_to_500_witness :
    Api.recommend_outfit (Except.ok ())
        (fun _ => (Except.error "boom" : Except String Unit)) =
      Api.EndpointResult.httpError 500 "boom" :=
  (exceptions_map_to_500 "boom" ()
    (fun _ => (Except.error "boom" : Except String Unit))
    EngineError.emptyWardrobe
    (EngineError.infeasibleOutfit GarmentType.shoes)).2.2.1 rfl

end WeatherOutfit
